import Mathlib

/-!
Verification development for the OKX MCP trading server (`src/main.py`).

The embedding models the module's pure data flow: credentials loaded from the
environment, the HMAC-SHA256 request signer, the header builder, and the
`create_order` workflow (balance check, optional interactive elicitation,
order submission).  Network responses (server time, the parsed balance JSON,
the order response) are inputs to the model; the network calls the code makes
are recorded in an explicit effect trace.
-/

/-- Byte strings are lists of naturals below 256 (the bytes of Python
`bytes` values). -/
abbrev Bytes := List Nat

/-- Word size modulus for 32-bit arithmetic. -/
def w32mod : Nat := 4294967296

/-- Truncate to 32 bits. -/
def w32 (n : Nat) : Nat := n % w32mod

/-- 32-bit right rotation, as used by SHA-256 (operands assumed < 2^32). -/
def rotr (x n : Nat) : Nat := w32 ((x >>> n) ||| (x <<< (32 - n)))

/-- SHA-256 Ch function. -/
def chF (x y z : Nat) : Nat := (x &&& y) ^^^ ((x ^^^ 4294967295) &&& z)

/-- SHA-256 Maj function. -/
def majF (x y z : Nat) : Nat := (x &&& y) ^^^ (x &&& z) ^^^ (y &&& z)

/-- SHA-256 big sigma 0. -/
def bsig0 (x : Nat) : Nat := rotr x 2 ^^^ rotr x 13 ^^^ rotr x 22

/-- SHA-256 big sigma 1. -/
def bsig1 (x : Nat) : Nat := rotr x 6 ^^^ rotr x 11 ^^^ rotr x 25

/-- SHA-256 small sigma 0. -/
def ssig0 (x : Nat) : Nat := rotr x 7 ^^^ rotr x 18 ^^^ (x >>> 3)

/-- SHA-256 small sigma 1. -/
def ssig1 (x : Nat) : Nat := rotr x 17 ^^^ rotr x 19 ^^^ (x >>> 10)

/-- The 64 SHA-256 round constants. -/
def sha256K : List Nat :=
  [1116352408, 1899447441, 3049323471, 3921009573, 961987163,
   1508970993, 2453635748, 2870763221, 3624381080, 310598401,
   607225278, 1426881987, 1925078388, 2162078206, 2614888103,
   3248222580, 3835390401, 4022224774, 264347078, 604807628,
   770255983, 1249150122, 1555081692, 1996064986, 2554220882,
   2821834349, 2952996808, 3210313671, 3336571891, 3584528711,
   113926993, 338241895, 666307205, 773529912, 1294757372,
   1396182291, 1695183700, 1986661051, 2177026350, 2456956037,
   2730485921, 2820302411, 3259730800, 3345764771, 3516065817,
   3600352804, 4094571909, 275423344, 430227734, 506948616,
   659060556, 883997877, 958139571, 1322822218, 1537002063,
   1747873779, 1955562222, 2024104815, 2227730452, 2361852424,
   2428436474, 2756734187, 3204031479, 3329325298]

/-- The eight SHA-256 initial hash words. -/
def sha256H0 : List Nat :=
  [1779033703, 3144134277, 1013904242, 2773480762, 1359893119,
   2600822924, 528734635, 1541459225]

/-- Split a list into chunks of `n` elements (final chunk may be short). -/
def chunksOf (n : Nat) : List α → List (List α)
  | [] => []
  | x :: xs => (x :: xs.take (n - 1)) :: chunksOf n (xs.drop (n - 1))
  termination_by l => l.length
  decreasing_by simp [List.length_drop]; omega

/-- Big-endian bytes of a 32-bit word. -/
def be32 (x : Nat) : Bytes :=
  [(x >>> 24) &&& 255, (x >>> 16) &&& 255, (x >>> 8) &&& 255, x &&& 255]

/-- Big-endian bytes of a 64-bit word. -/
def be64 (x : Nat) : Bytes :=
  [(x >>> 56) &&& 255, (x >>> 48) &&& 255, (x >>> 40) &&& 255, (x >>> 32) &&& 255,
   (x >>> 24) &&& 255, (x >>> 16) &&& 255, (x >>> 8) &&& 255, x &&& 255]

/-- SHA-256 message padding for a message of `len` bytes. -/
def sha256Padding (len : Nat) : Bytes :=
  0x80 :: List.replicate ((119 - len % 64) % 64) 0 ++ be64 (len * 8)

/-- Interpret four bytes as one big-endian 32-bit word. -/
def wordOfBytes (c : Bytes) : Nat := c.foldl (fun a b => a * 256 + b) 0

/-- The sixteen 32-bit words of a 64-byte block. -/
def wordsOfBlock (block : Bytes) : List Nat := (chunksOf 4 block).map wordOfBytes

/-- One step of the SHA-256 message-schedule extension: append word
`W[n] = ssig1 W[n-2] + W[n-7] + ssig0 W[n-15] + W[n-16]`. -/
def extendStep (w : List Nat) : List Nat :=
  let n := w.length
  w ++ [w32 (ssig1 (w.getD (n - 2) 0) + w.getD (n - 7) 0 + ssig0 (w.getD (n - 15) 0) + w.getD (n - 16) 0)]

/-- Extend the sixteen block words to the 64-entry message schedule. -/
def scheduleW (w16 : List Nat) : List Nat := Nat.iterate extendStep 48 w16

/-- Working state of the SHA-256 compression function. -/
structure H8 where
  a : Nat
  b : Nat
  c : Nat
  d : Nat
  e : Nat
  f : Nat
  g : Nat
  h : Nat
  deriving DecidableEq

/-- One SHA-256 compression round with round constant `k` and schedule word `w`. -/
def compressStep (st : H8) (k w : Nat) : H8 :=
  let t1 := w32 (st.h + bsig1 st.e + chF st.e st.f st.g + k + w)
  let t2 := w32 (bsig0 st.a + majF st.a st.b st.c)
  ⟨w32 (t1 + t2), st.a, st.b, st.c, w32 (st.d + t1), st.e, st.f, st.g⟩

/-- SHA-256 compression of one 64-byte block into the running hash words. -/
def compressBlock (hw : List Nat) (block : Bytes) : List Nat :=
  let w := scheduleW (wordsOfBlock block)
  let st0 : H8 := ⟨hw.getD 0 0, hw.getD 1 0, hw.getD 2 0, hw.getD 3 0,
                   hw.getD 4 0, hw.getD 5 0, hw.getD 6 0, hw.getD 7 0⟩
  let st := (sha256K.zip w).foldl (fun st p => compressStep st p.1 p.2) st0
  [w32 (hw.getD 0 0 + st.a), w32 (hw.getD 1 0 + st.b), w32 (hw.getD 2 0 + st.c),
   w32 (hw.getD 3 0 + st.d), w32 (hw.getD 4 0 + st.e), w32 (hw.getD 5 0 + st.f),
   w32 (hw.getD 6 0 + st.g), w32 (hw.getD 7 0 + st.h)]

/-- SHA-256 of a byte string (the digest Python `hashlib`'s sha256 computes). -/
def sha256 (msg : Bytes) : Bytes :=
  let padded := msg ++ sha256Padding msg.length
  ((chunksOf 64 padded).foldl compressBlock sha256H0).flatMap be32

/-- HMAC-SHA256 with the given key and message bytes, as computed by Python's
`hmac.new(key, msg, digestmod='sha256').digest()`. -/
def hmacSha256 (key msg : Bytes) : Bytes :=
  let k0 := if key.length > 64 then sha256 key else key
  let k := k0 ++ List.replicate (64 - k0.length) 0
  let ipadKey := k.map (fun b => b ^^^ 0x36)
  let opadKey := k.map (fun b => b ^^^ 0x5c)
  sha256 (opadKey ++ sha256 (ipadKey ++ msg))

/-- The base64 alphabet. -/
def b64Alphabet : List Char :=
  "ABCDEFGHIJKLMNOPQRSTUVWXYZabcdefghijklmnopqrstuvwxyz0123456789+/".data

/-- The base64 character for a 6-bit value. -/
def b64Char (n : Nat) : Char := b64Alphabet.getD n 'A'

/-- Standard base64 encoding of a byte string, three bytes at a time with
`=` padding (Python `base64.b64encode`). -/
def b64Chars : Bytes → List Char
  | [] => []
  | [a] => [b64Char (a >>> 2), b64Char ((a &&& 3) <<< 4), '=', '=']
  | [a, b] => [b64Char (a >>> 2), b64Char (((a &&& 3) <<< 4) ||| (b >>> 4)),
               b64Char ((b &&& 15) <<< 2), '=']
  | a :: b :: c :: rest =>
      b64Char (a >>> 2) :: b64Char (((a &&& 3) <<< 4) ||| (b >>> 4)) ::
      b64Char (((b &&& 15) <<< 2) ||| (c >>> 6)) :: b64Char (c &&& 63) :: b64Chars rest

/-- Base64 encoding returned as a string (`base64.b64encode(...).decode()`). -/
def base64Encode (bytes : Bytes) : String := String.mk (b64Chars bytes)

/-- UTF-8 encoding of one character. -/
def utf8Char (c : Char) : Bytes :=
  let n := c.toNat
  if n < 0x80 then [n]
  else if n < 0x800 then [0xC0 ||| (n >>> 6), 0x80 ||| (n &&& 0x3F)]
  else if n < 0x10000 then
    [0xE0 ||| (n >>> 12), 0x80 ||| ((n >>> 6) &&& 0x3F), 0x80 ||| (n &&& 0x3F)]
  else
    [0xF0 ||| (n >>> 18), 0x80 ||| ((n >>> 12) &&& 0x3F),
     0x80 ||| ((n >>> 6) &&& 0x3F), 0x80 ||| (n &&& 0x3F)]

/-- UTF-8 bytes of a string (Python `bytes(s, 'utf-8')`). -/
def strToBytes (s : String) : Bytes := (s.data.map utf8Char).flatten

/-- ASCII upper-casing of a string, the behaviour of Python `str.upper()` on
the ASCII method names used here. -/
def pyUpper (s : String) : String := String.mk (s.data.map Char.toUpper)

/-- The string signed by `get_okx_signature` (`src/main.py` line 43):
`message = timestamp + method.upper() + request_path + body`. -/
def signMessage (timestamp method request_path body : String) : String :=
  timestamp ++ pyUpper method ++ request_path ++ body

/-- The signature computed by `get_okx_signature` (`src/main.py` lines 40-45)
once the secret is present: base64 of the raw HMAC-SHA256 digest of the UTF-8
bytes of `signMessage`, keyed by the UTF-8 bytes of the secret.  The `body`
parameter defaults to the empty string exactly as in the source. -/
def get_okx_signature (secret timestamp method request_path : String)
    (body : String := "") : String :=
  base64Encode (hmacSha256 (strToBytes secret)
    (strToBytes (signMessage timestamp method request_path body)))

/-- Follows the spec's words (§4.2): "compute HMAC using SHA-256 over the
exact concatenation `timestamp || UPPERCASE(method) || path || body` ...,
then base64-encode the raw digest", reading `||` as byte concatenation of the
separately encoded fields. -/
def sign_spec (secret timestamp method path body : String) : String :=
  base64Encode (hmacSha256 (strToBytes secret)
    (strToBytes timestamp ++ strToBytes (pyUpper method) ++ strToBytes path ++ strToBytes body))

/-- Process-wide configuration (`src/main.py` lines 19-23): the three
credentials read from `key.env`; each is absent (`None`) when the key is
missing from the environment file. -/
structure Config where
  api_key : Option String
  api_secret : Option String
  api_passphrase : Option String

/-- Python truthiness test `not value` for an optional string: true when the
value is `None` or the empty string. -/
def pyFalsy : Option String → Bool
  | none => true
  | some s => s.isEmpty

/-- Python `str(x)` for an optional string as printed by `print`: `None` when
absent, the string itself otherwise. -/
def pyShowOpt : Option String → String
  | none => "None"
  | some s => s

/-- The value of a present credential (only read under a `pyFalsy` guard). -/
def optVal (o : Option String) : String := o.getD ""

/-- All three credentials pass the code's truthiness checks. -/
def credsOk (cfg : Config) : Bool :=
  !pyFalsy cfg.api_key && !pyFalsy cfg.api_passphrase && !pyFalsy cfg.api_secret

/-- The header map built by `get_okx_headers` (`src/main.py` lines 47-60) for
a caller-supplied timestamp.  The source raises `ValueError` when key or
passphrase is falsy, and `get_okx_signature` raises when the secret is falsy,
in that order; errors are modelled with `Except.error` carrying the message. -/
def get_okx_headers (cfg : Config) (method request_path body timestamp : String) :
    Except String (List (String × String)) :=
  if pyFalsy cfg.api_key || pyFalsy cfg.api_passphrase then
    .error "API_KEY or API_PASSPHRASE not found in environment variables."
  else if pyFalsy cfg.api_secret then
    .error "API_SECRET not found in environment variables."
  else
    .ok [("Content-Type", "application/json"),
         ("OK-ACCESS-KEY", optVal cfg.api_key),
         ("OK-ACCESS-SIGN", get_okx_signature (optVal cfg.api_secret) timestamp method request_path body),
         ("OK-ACCESS-TIMESTAMP", timestamp),
         ("OK-ACCESS-PASSPHRASE", optVal cfg.api_passphrase),
         ("x-simulated-trading", "0")]

/-- One entry of the `details` array of the balance response, with the two
fields the code reads; each may be absent. -/
structure BalanceDetail where
  ccy : Option String
  availBal : Option String
  deriving DecidableEq

/-- One account object of the balance response's `data` array; `details` may
be absent (`acc.get('details', [])` then yields `[]`). -/
structure BalanceAccount where
  details : Option (List BalanceDetail)
  deriving DecidableEq

/-- The parsed balance response, with the `data` key possibly absent. -/
structure BalanceResp where
  data : Option (List BalanceAccount)
  deriving DecidableEq

/-- The detail list inspected by `create_order` (`src/main.py` line 132):
`balance_data.get('data', [{}])[0].get('details', [])`.  When `data` is
absent the default `[{}]` makes this `[]`; when `data` is the empty list the
indexing raises `IndexError`; otherwise only the first account object is
read. -/
def firstDetails (resp : BalanceResp) : Except String (List BalanceDetail) :=
  match resp.data with
  | none => .ok []
  | some [] => .error "IndexError: list index out of range"
  | some (acc :: _) => .ok (acc.details.getD [])

/-- Numeric value of one detail entry: `float(acc.get('availBal', 0))`, where
`toNum` models Python `float` on strings and `float(0)` is `0`. -/
def availNum (toNum : String → ℚ) (d : BalanceDetail) : ℚ :=
  match d.availBal with
  | some s => toNum s
  | none => 0

/-- The available balance resolved by the loop in `src/main.py` lines 131-135:
starting from `available = 0.0`, take the first detail entry whose `ccy`
equals the checked currency and `break`. -/
def resolveAvailable (toNum : String → ℚ) (ccy : String) (details : List BalanceDetail) : ℚ :=
  match details.find? (fun d => d.ccy == some ccy) with
  | some d => availNum toNum d
  | none => 0

/-- Python `instId.split('-')`: split on every `-`, keeping empty pieces. -/
def splitDashAux : List Char → List Char → List String
  | [], acc => [String.mk acc.reverse]
  | c :: cs, acc =>
      if c = '-' then String.mk acc.reverse :: splitDashAux cs []
      else splitDashAux cs (c :: acc)

/-- `instId.split('-')` (`src/main.py` line 129). -/
def splitDash (s : String) : List String := splitDashAux s.data []

/-- The currency whose balance is checked (`src/main.py` line 130):
quote currency for a buy, base currency otherwise. -/
def checkedCcy (side base_ccy quote_ccy : String) : String :=
  if side == "buy" then quote_ccy else base_ccy

/-- The elicitation schema `OrderElicitation` (`src/main.py` lines 107-110). -/
structure OrderElicitation where
  tryAgain : Bool
  newSize : String
  deriving DecidableEq

/-- The outcome of `ctx.elicit`: an action string and optional data. -/
structure ElicitResult where
  action : String
  data : Option OrderElicitation
  deriving DecidableEq

/-- The acceptance test of `src/main.py` line 143:
`result.action == "accept" and result.data and result.data.tryAgain`. -/
def acceptTryAgain (r : ElicitResult) : Bool :=
  r.action == "accept" &&
    (match r.data with
     | some d => d.tryAgain
     | none => false)

/-- The replacement size read on acceptance (`sz = result.data.newSize`). -/
def newSizeOf (r : ElicitResult) : String :=
  match r.data with
  | some d => d.newSize
  | none => ""

/-- The elicitation message of `src/main.py` line 140, with the rendered
available amount substituted. -/
def elicitMessage (ccy availStr sz : String) : String :=
  "当前" ++ ccy ++ "可用余额为" ++ availStr ++ "，下单数量" ++ sz ++ "超出余额，是否尝试更小的数量？"

/-- The cancellation sentinel returned on decline (`src/main.py` line 146). -/
def cancelledMsg : String := "[CANCELLED] 余额不足，订单已取消"

/-- The failure sentinel returned without an interactive context
(`src/main.py` line 148). -/
def failedMsg (ccy availStr : String) : String :=
  "[FAILED] 余额不足，可用" ++ ccy ++ "为" ++ availStr

/-- The order body dict of `src/main.py` lines 151-157. -/
structure OrderBody where
  instId : String
  tdMode : String
  side : String
  ordType : String
  sz : String
  deriving DecidableEq

/-- `json.dumps(body_dict)` for the order body (insertion-ordered keys,
default separators). -/
def json_dumps_body (b : OrderBody) : String :=
  "\x7b\"instId\": \"" ++ b.instId ++ "\", \"tdMode\": \"" ++ b.tdMode ++
  "\", \"side\": \"" ++ b.side ++ "\", \"ordType\": \"" ++ b.ordType ++
  "\", \"sz\": \"" ++ b.sz ++ "\"\x7d"

/-- Observable external actions of a tool invocation, in order: the public
server-time fetch, the authenticated balance GET, a call to `ctx.elicit`
with its message, and the authenticated order POST with its body. -/
inductive Effect where
  | serverTimeFetch : Effect
  | balanceGet : Effect
  | elicitCall : String → Effect
  | orderPost : OrderBody → Effect
  deriving DecidableEq

/-- The order bodies POSTed during an invocation. -/
def ordersOf (effs : List Effect) : List OrderBody :=
  effs.filterMap (fun e => match e with | .orderPost b => some b | _ => none)

/-- Number of balance queries issued during an invocation. -/
def countBalanceGets (effs : List Effect) : Nat :=
  (effs.filter (fun e => match e with | .balanceGet => true | _ => false)).length

/-- Number of `ctx.elicit` calls issued during an invocation. -/
def countElicits (effs : List Effect) : Nat :=
  (effs.filter (fun e => match e with | .elicitCall _ => true | _ => false)).length

/-- True when the invocation ended in a raised exception. -/
def isErr : Except String String → Bool
  | .error _ => true
  | .ok _ => false

/-- The submission tail of `create_order` (`src/main.py` lines 149-164):
fetch server time, build headers over the serialized body, POST the order,
return the pretty-printed exchange response (`orderResp` is that rendered
response). -/
def submit_order (cfg : Config) (ts2 orderResp : String)
    (instId tdMode side ordType szFinal : String) (effs : List Effect) :
    List Effect × Except String String :=
  let body : OrderBody := ⟨instId, tdMode, side, ordType, szFinal⟩
  match get_okx_headers cfg "POST" "/api/v5/trade/order" (json_dumps_body body) ts2 with
  | .error e => (effs ++ [.serverTimeFetch], .error e)
  | .ok _ => (effs ++ [.serverTimeFetch, .orderPost body], .ok orderResp)

/-- The `create_order` tool (`src/main.py` lines 112-164).  Inputs supplied by
the environment: the two server-time responses `ts1`, `ts2`, the parsed
balance response `balResp`, the rendered exchange response `orderResp` to a
successful POST, `toNum` for Python `float` on strings, `render` for Python
`str` on the float `available`, and `ctx` as the optional elicitation
collaborator mapping the prompt message to the user's `ElicitResult`.
Returns the effect trace and the tool result (`Except.error` models a raised
exception). -/
def create_order (cfg : Config) (toNum : String → ℚ) (render : ℚ → String)
    (ts1 : String) (balResp : BalanceResp) (ts2 orderResp : String)
    (instId side sz ordType tdMode : String)
    (ctx : Option (String → ElicitResult)) : List Effect × Except String String :=
  match get_okx_headers cfg "GET" "/api/v5/account/balance" "" ts1 with
  | .error e => ([.serverTimeFetch], .error e)
  | .ok _ =>
    match splitDash instId with
    | [base_ccy, quote_ccy] =>
      let ccy := checkedCcy side base_ccy quote_ccy
      match firstDetails balResp with
      | .error e => ([.serverTimeFetch, .balanceGet], .error e)
      | .ok details =>
        let available := resolveAvailable toNum ccy details
        if toNum sz > available then
          match ctx with
          | some elicitFn =>
            let msg := elicitMessage ccy (render available) sz
            if acceptTryAgain (elicitFn msg) then
              submit_order cfg ts2 orderResp instId tdMode side ordType
                (newSizeOf (elicitFn msg))
                [.serverTimeFetch, .balanceGet, .elicitCall msg]
            else
              ([.serverTimeFetch, .balanceGet, .elicitCall msg], .ok cancelledMsg)
          | none =>
              ([.serverTimeFetch, .balanceGet], .ok (failedMsg ccy (render available)))
        else
          submit_order cfg ts2 orderResp instId tdMode side ordType sz
            [.serverTimeFetch, .balanceGet]
    | _ => ([.serverTimeFetch, .balanceGet],
            .error "ValueError: not enough values to unpack (expected 2)")

/-- The `get_balance` tool (`src/main.py` lines 63-75): fetch server time,
build headers, GET the balance, return the pretty-printed response
(`respStr`). -/
def get_balance (cfg : Config) (ts respStr : String) : List Effect × Except String String :=
  match get_okx_headers cfg "GET" "/api/v5/account/balance" "" ts with
  | .error e => ([.serverTimeFetch], .error e)
  | .ok _ => ([.serverTimeFetch, .balanceGet], .ok respStr)

/-- The console lines printed at startup (`src/main.py` lines 167-180; the
same four prints run in both the `main()` and the `run` entry path). -/
def main_output (cfg : Config) : List String :=
  ["Hello from mcp-server-demo!\n可用MCP工具：get_balance, get_ticker, get_kline, create_order",
   "API_KEY: " ++ pyShowOpt cfg.api_key,
   "API_SECRET: " ++ pyShowOpt cfg.api_secret,
   "API_PASSPHRASE: " ++ pyShowOpt cfg.api_passphrase]

theorem strToBytes_append (a b : String) : strToBytes (a ++ b) = strToBytes a ++ strToBytes b := by
  cases a with
  | mk da =>
    cases b with
    | mk db =>
      show strToBytes (String.mk (da ++ db)) = _
      simp [strToBytes, List.map_append]

theorem string_append_right_cancel {a b c : String} (h : a ++ c = b ++ c) : a = b := by
  cases a with
  | mk da =>
    cases b with
    | mk db =>
      cases c with
      | mk dc =>
        have hd : da ++ dc = db ++ dc := congrArg String.data h
        have hlen : da.length = db.length := by
          have := congrArg List.length hd
          simp at this
          omega
        exact congrArg String.mk (List.append_inj hd hlen).1

theorem string_append_left_cancel {a b c : String} (h : a ++ b = a ++ c) : b = c := by
  cases a with
  | mk da =>
    cases b with
    | mk db =>
      cases c with
      | mk dc =>
        have hd : da ++ db = da ++ dc := congrArg String.data h
        exact congrArg String.mk (List.append_inj hd rfl).2

/-- Claim C5: for every secret, timestamp, method, path and body, the Signer's
output equals the base64 encoding of the raw HMAC-SHA256 digest keyed by the
secret over the exact byte concatenation
`timestamp || UPPERCASE(method) || path || body` (with `body` the empty
string by default, as `get_okx_signature`'s default parameter provides). -/
theorem sign_matches_spec (secret timestamp method path body : String) :
    get_okx_signature secret timestamp method path body =
      sign_spec secret timestamp method path body := by
  simp [get_okx_signature, sign_spec, signMessage, strToBytes_append]

theorem string_append_assoc (a b c : String) : (a ++ b) ++ c = a ++ (b ++ c) := by
  cases a with
  | mk da =>
    cases b with
    | mk db =>
      cases c with
      | mk dc =>
        show String.mk ((da ++ db) ++ dc) = String.mk (da ++ (db ++ dc))
        rw [List.append_assoc]

/-- Claim C6 (amended): `sign` is deterministic, and a change confined to the
timestamp, path, or body always changes the signed message; a change confined
to the method changes the signed message exactly when the upper-cased methods
differ, and methods equal up to case yield identical signatures. -/
theorem sign_deterministic_and_field_sensitive (secret ts ts' m m' p p' b b' : String) :
    (ts = ts' → m = m' → p = p' → b = b' →
       get_okx_signature secret ts m p b = get_okx_signature secret ts' m' p' b') ∧
    (ts ≠ ts' → signMessage ts m p b ≠ signMessage ts' m p b) ∧
    (pyUpper m ≠ pyUpper m' → signMessage ts m p b ≠ signMessage ts m' p b) ∧
    (p ≠ p' → signMessage ts m p b ≠ signMessage ts m p' b) ∧
    (b ≠ b' → signMessage ts m p b ≠ signMessage ts m p b') ∧
    (pyUpper m = pyUpper m' →
       get_okx_signature secret ts m p b = get_okx_signature secret ts m' p b) := by
  refine ⟨?_, ?_, ?_, ?_, ?_, ?_⟩
  · intro h1 h2 h3 h4
    rw [h1, h2, h3, h4]
  · intro hne heq
    apply hne
    simp only [signMessage, string_append_assoc] at heq
    exact string_append_right_cancel heq
  · intro hne heq
    apply hne
    simp only [signMessage, string_append_assoc] at heq
    exact string_append_right_cancel (string_append_left_cancel heq)
  · intro hne heq
    apply hne
    simp only [signMessage, string_append_assoc] at heq
    exact string_append_right_cancel (string_append_left_cancel (string_append_left_cancel heq))
  · intro hne heq
    apply hne
    simp only [signMessage, string_append_assoc] at heq
    exact string_append_left_cancel (string_append_left_cancel (string_append_left_cancel heq))
  · intro h
    simp only [get_okx_signature, signMessage, h]

/-- Witness for `sign_deterministic_and_field_sensitive` at concrete inputs. -/
theorem sign_deterministic_and_field_sensitive_witness :
    (get_okx_signature "s" "t" "GET" "/p" "b" = get_okx_signature "s" "t" "GET" "/p" "b") ∧
    signMessage "t1" "GET" "/p" "" ≠ signMessage "t2" "GET" "/p" "" ∧
    signMessage "t" "GET" "/p" "" ≠ signMessage "t" "POST" "/p" "" ∧
    signMessage "t" "GET" "/a" "" ≠ signMessage "t" "GET" "/b" "" ∧
    signMessage "t" "GET" "/p" "x" ≠ signMessage "t" "GET" "/p" "y" ∧
    get_okx_signature "s" "t" "get" "/p" "b" = get_okx_signature "s" "t" "gEt" "/p" "b" :=
  ⟨(sign_deterministic_and_field_sensitive "s" "t" "t" "GET" "GET" "/p" "/p" "b" "b").1 rfl rfl rfl rfl,
   (sign_deterministic_and_field_sensitive "s" "t1" "t2" "GET" "GET" "/p" "/p" "" "").2.1 (by decide),
   (sign_deterministic_and_field_sensitive "s" "t" "t" "GET" "POST" "/p" "/p" "" "").2.2.1 (by decide),
   (sign_deterministic_and_field_sensitive "s" "t" "t" "GET" "GET" "/a" "/b" "" "").2.2.2.1 (by decide),
   (sign_deterministic_and_field_sensitive "s" "t" "t" "GET" "GET" "/p" "/p" "x" "y").2.2.2.2.1 (by decide),
   (sign_deterministic_and_field_sensitive "s" "t" "t" "get" "gEt" "/p" "/p" "b" "b").2.2.2.2.2 (by decide)⟩

/-- Claim C6 counterexample: the tuples `("t", "get", "/p", "b")` and
`("t", "GET", "/p", "b")` differ in exactly the method field, yet the
signatures coincide, because the source upper-cases the method before
signing. -/
theorem sign_single_field_change_collision :
    ("get" : String) ≠ "GET" ∧
    get_okx_signature "s" "t" "get" "/p" "b" = get_okx_signature "s" "t" "GET" "/p" "b" := by
  constructor
  · decide
  · have h : pyUpper "get" = pyUpper "GET" := by decide
    simp only [get_okx_signature, signMessage, h]

theorem pyFalsy_eq_false_of_credsOk {cfg : Config} (hc : credsOk cfg = true) :
    pyFalsy cfg.api_key = false ∧ pyFalsy cfg.api_passphrase = false ∧
      pyFalsy cfg.api_secret = false := by
  simp only [credsOk, Bool.and_eq_true, Bool.not_eq_true'] at hc
  exact ⟨hc.1.1, hc.1.2, hc.2⟩

/-- Claim C1: when the requested size (as parsed) is at most the resolved
available balance of the checked currency, `create_order` submits exactly one
order carrying the original size `sz` and never calls `ctx.elicit`, for any
elicitation context. -/
theorem create_order_sufficient (cfg : Config) (toNum : String → ℚ) (render : ℚ → String)
    (ts1 : String) (balResp : BalanceResp) (ts2 orderResp : String)
    (instId side sz ordType tdMode : String) (ctx : Option (String → ElicitResult))
    (bc qc : String) (details : List BalanceDetail)
    (hc : credsOk cfg = true)
    (hsplit : splitDash instId = [bc, qc])
    (hdet : firstDetails balResp = .ok details)
    (hsz : toNum sz ≤ resolveAvailable toNum (checkedCcy side bc qc) details) :
    create_order cfg toNum render ts1 balResp ts2 orderResp instId side sz ordType tdMode ctx =
      ([.serverTimeFetch, .balanceGet, .serverTimeFetch,
        .orderPost ⟨instId, tdMode, side, ordType, sz⟩], .ok orderResp) ∧
    ordersOf (create_order cfg toNum render ts1 balResp ts2 orderResp instId side sz ordType tdMode ctx).1 =
      [⟨instId, tdMode, side, ordType, sz⟩] ∧
    countElicits (create_order cfg toNum render ts1 balResp ts2 orderResp instId side sz ordType tdMode ctx).1 = 0 := by
  obtain ⟨h1, h2, h3⟩ := pyFalsy_eq_false_of_credsOk hc
  have hlt : ¬ (toNum sz > resolveAvailable toNum (checkedCcy side bc qc) details) :=
    not_lt.mpr hsz
  have hmain : create_order cfg toNum render ts1 balResp ts2 orderResp instId side sz ordType tdMode ctx =
      ([.serverTimeFetch, .balanceGet, .serverTimeFetch,
        .orderPost ⟨instId, tdMode, side, ordType, sz⟩], .ok orderResp) := by
    simp [create_order, get_okx_headers, h1, h2, h3, hsplit, hdet, hlt, submit_order]
  refine ⟨hmain, ?_, ?_⟩
  · rw [hmain]
    simp [ordersOf]
  · rw [hmain]
    simp [countElicits]

/-- Claim C2: when the requested size exceeds the available balance, a
collaborator is present, and its response is anything other than
accept-with-`tryAgain`, the workflow posts no order and returns the
`[CANCELLED]` sentinel. -/
theorem create_order_declined (cfg : Config) (toNum : String → ℚ) (render : ℚ → String)
    (ts1 : String) (balResp : BalanceResp) (ts2 orderResp : String)
    (instId side sz ordType tdMode : String) (elicitFn : String → ElicitResult)
    (bc qc : String) (details : List BalanceDetail)
    (hc : credsOk cfg = true)
    (hsplit : splitDash instId = [bc, qc])
    (hdet : firstDetails balResp = .ok details)
    (hsz : toNum sz > resolveAvailable toNum (checkedCcy side bc qc) details)
    (hdecl : acceptTryAgain (elicitFn (elicitMessage (checkedCcy side bc qc)
      (render (resolveAvailable toNum (checkedCcy side bc qc) details)) sz)) = false) :
    create_order cfg toNum render ts1 balResp ts2 orderResp instId side sz ordType tdMode (some elicitFn) =
      ([.serverTimeFetch, .balanceGet,
        .elicitCall (elicitMessage (checkedCcy side bc qc)
          (render (resolveAvailable toNum (checkedCcy side bc qc) details)) sz)],
       .ok cancelledMsg) ∧
    ordersOf (create_order cfg toNum render ts1 balResp ts2 orderResp instId side sz ordType tdMode (some elicitFn)).1 = [] ∧
    cancelledMsg = "[CANCELLED]" ++ " 余额不足，订单已取消" := by
  obtain ⟨h1, h2, h3⟩ := pyFalsy_eq_false_of_credsOk hc
  have hmain : create_order cfg toNum render ts1 balResp ts2 orderResp instId side sz ordType tdMode (some elicitFn) =
      ([.serverTimeFetch, .balanceGet,
        .elicitCall (elicitMessage (checkedCcy side bc qc)
          (render (resolveAvailable toNum (checkedCcy side bc qc) details)) sz)],
       .ok cancelledMsg) := by
    simp [create_order, get_okx_headers, h1, h2, h3, hsplit, hdet, hsz, hdecl]
  refine ⟨hmain, ?_, by decide⟩
  rw [hmain]
  simp [ordersOf]

/-- Claim C3: when the requested size exceeds the available balance and the
collaborator accepts with `tryAgain`, exactly one order is posted carrying
the replacement size, and only one balance query occurs in the whole
invocation (no balance re-check between acceptance and submission). -/
theorem create_order_negotiated (cfg : Config) (toNum : String → ℚ) (render : ℚ → String)
    (ts1 : String) (balResp : BalanceResp) (ts2 orderResp : String)
    (instId side sz ordType tdMode : String) (elicitFn : String → ElicitResult)
    (bc qc : String) (details : List BalanceDetail)
    (hc : credsOk cfg = true)
    (hsplit : splitDash instId = [bc, qc])
    (hdet : firstDetails balResp = .ok details)
    (hsz : toNum sz > resolveAvailable toNum (checkedCcy side bc qc) details)
    (hacc : acceptTryAgain (elicitFn (elicitMessage (checkedCcy side bc qc)
      (render (resolveAvailable toNum (checkedCcy side bc qc) details)) sz)) = true) :
    create_order cfg toNum render ts1 balResp ts2 orderResp instId side sz ordType tdMode (some elicitFn) =
      ([.serverTimeFetch, .balanceGet,
        .elicitCall (elicitMessage (checkedCcy side bc qc)
          (render (resolveAvailable toNum (checkedCcy side bc qc) details)) sz),
        .serverTimeFetch,
        .orderPost ⟨instId, tdMode, side, ordType,
          newSizeOf (elicitFn (elicitMessage (checkedCcy side bc qc)
            (render (resolveAvailable toNum (checkedCcy side bc qc) details)) sz))⟩],
       .ok orderResp) ∧
    ordersOf (create_order cfg toNum render ts1 balResp ts2 orderResp instId side sz ordType tdMode (some elicitFn)).1 =
      [⟨instId, tdMode, side, ordType,
        newSizeOf (elicitFn (elicitMessage (checkedCcy side bc qc)
          (render (resolveAvailable toNum (checkedCcy side bc qc) details)) sz))⟩] ∧
    countBalanceGets (create_order cfg toNum render ts1 balResp ts2 orderResp instId side sz ordType tdMode (some elicitFn)).1 = 1 := by
  obtain ⟨h1, h2, h3⟩ := pyFalsy_eq_false_of_credsOk hc
  have hmain : create_order cfg toNum render ts1 balResp ts2 orderResp instId side sz ordType tdMode (some elicitFn) =
      ([.serverTimeFetch, .balanceGet,
        .elicitCall (elicitMessage (checkedCcy side bc qc)
          (render (resolveAvailable toNum (checkedCcy side bc qc) details)) sz),
        .serverTimeFetch,
        .orderPost ⟨instId, tdMode, side, ordType,
          newSizeOf (elicitFn (elicitMessage (checkedCcy side bc qc)
            (render (resolveAvailable toNum (checkedCcy side bc qc) details)) sz))⟩],
       .ok orderResp) := by
    simp [create_order, get_okx_headers, h1, h2, h3, hsplit, hdet, hsz, hacc, submit_order]
  refine ⟨hmain, ?_, ?_⟩
  · rw [hmain]
    simp [ordersOf]
  · rw [hmain]
    simp [countBalanceGets]

/-- Claim C4: when the requested size exceeds the available balance and no
elicitation context exists, the workflow posts no order and returns the
`[FAILED]` sentinel, which carries the checked currency and the rendered
available amount. -/
theorem create_order_no_ctx (cfg : Config) (toNum : String → ℚ) (render : ℚ → String)
    (ts1 : String) (balResp : BalanceResp) (ts2 orderResp : String)
    (instId side sz ordType tdMode : String)
    (bc qc : String) (details : List BalanceDetail)
    (hc : credsOk cfg = true)
    (hsplit : splitDash instId = [bc, qc])
    (hdet : firstDetails balResp = .ok details)
    (hsz : toNum sz > resolveAvailable toNum (checkedCcy side bc qc) details) :
    create_order cfg toNum render ts1 balResp ts2 orderResp instId side sz ordType tdMode none =
      ([.serverTimeFetch, .balanceGet],
       .ok (failedMsg (checkedCcy side bc qc)
         (render (resolveAvailable toNum (checkedCcy side bc qc) details)))) ∧
    ordersOf (create_order cfg toNum render ts1 balResp ts2 orderResp instId side sz ordType tdMode none).1 = [] ∧
    failedMsg (checkedCcy side bc qc) (render (resolveAvailable toNum (checkedCcy side bc qc) details)) =
      "[FAILED]" ++ (" 余额不足，可用" ++ (checkedCcy side bc qc ++ ("为" ++
        render (resolveAvailable toNum (checkedCcy side bc qc) details)))) := by
  obtain ⟨h1, h2, h3⟩ := pyFalsy_eq_false_of_credsOk hc
  have hmain : create_order cfg toNum render ts1 balResp ts2 orderResp instId side sz ordType tdMode none =
      ([.serverTimeFetch, .balanceGet],
       .ok (failedMsg (checkedCcy side bc qc)
         (render (resolveAvailable toNum (checkedCcy side bc qc) details)))) := by
    simp [create_order, get_okx_headers, h1, h2, h3, hsplit, hdet, hsz]
  refine ⟨hmain, ?_, ?_⟩
  · rw [hmain]
    simp [ordersOf]
  · have hlit : ("[FAILED] 余额不足，可用" : String) = "[FAILED]" ++ " 余额不足，可用" := by decide
    simp only [failedMsg, hlit, string_append_assoc]

/-- Claim C7 (amended): with any credential missing (or empty), every tool
invocation raises the configuration error before any authenticated request —
the trace stops at the public server-time fetch, and neither the balance GET
nor an order POST is issued; the error is however raised after that
server-time network call, not before it. -/
theorem config_error_before_authenticated_call (cfg : Config) (ts respStr : String)
    (toNum : String → ℚ) (render : ℚ → String)
    (ts1 : String) (balResp : BalanceResp) (ts2 orderResp : String)
    (instId side sz ordType tdMode : String) (ctx : Option (String → ElicitResult))
    (hc : credsOk cfg = false) :
    isErr (get_balance cfg ts respStr).2 = true ∧
    (get_balance cfg ts respStr).1 = [.serverTimeFetch] ∧
    isErr (create_order cfg toNum render ts1 balResp ts2 orderResp instId side sz ordType tdMode ctx).2 = true ∧
    (create_order cfg toNum render ts1 balResp ts2 orderResp instId side sz ordType tdMode ctx).1 =
      [.serverTimeFetch] := by
  cases hk : pyFalsy cfg.api_key <;> cases hp : pyFalsy cfg.api_passphrase <;>
    cases hs : pyFalsy cfg.api_secret <;>
    simp [credsOk, hk, hp, hs] at hc ⊢ <;>
    simp [get_balance, create_order, get_okx_headers, isErr, hk, hp, hs]

/-- Claim C7 counterexample: with the secret absent, `get_balance` raises the
configuration error only after the server-time fetch — the trace already
contains a network call when the error is raised, refuting "before any
network call ... in particular, before the server-time fetch". -/
theorem config_error_after_time_fetch_counterexample :
    get_balance ⟨some "k", none, some "pass"⟩ "t" "r" =
      ([.serverTimeFetch], .error "API_SECRET not found in environment variables.") ∧
    ([Effect.serverTimeFetch] : List Effect) ≠ [] := by
  constructor
  · rfl
  · decide

/-- Claim C8 (amended): an instrument id that does not split into exactly two
parts makes `create_order` raise the unpacking `ValueError` with no order
submitted and no elicitation, but only after the balance query: the trace
already contains the server-time fetch and the balance GET. -/
theorem create_order_bad_instId (cfg : Config) (toNum : String → ℚ) (render : ℚ → String)
    (ts1 : String) (balResp : BalanceResp) (ts2 orderResp : String)
    (instId side sz ordType tdMode : String) (ctx : Option (String → ElicitResult))
    (hc : credsOk cfg = true)
    (hlen : (splitDash instId).length ≠ 2) :
    create_order cfg toNum render ts1 balResp ts2 orderResp instId side sz ordType tdMode ctx =
      ([.serverTimeFetch, .balanceGet],
       .error "ValueError: not enough values to unpack (expected 2)") ∧
    ordersOf (create_order cfg toNum render ts1 balResp ts2 orderResp instId side sz ordType tdMode ctx).1 = [] ∧
    countElicits (create_order cfg toNum render ts1 balResp ts2 orderResp instId side sz ordType tdMode ctx).1 = 0 := by
  obtain ⟨h1, h2, h3⟩ := pyFalsy_eq_false_of_credsOk hc
  have hmain : create_order cfg toNum render ts1 balResp ts2 orderResp instId side sz ordType tdMode ctx =
      ([.serverTimeFetch, .balanceGet],
       .error "ValueError: not enough values to unpack (expected 2)") := by
    rcases hl : splitDash instId with _ | ⟨x, _ | ⟨y, _ | ⟨z, rest⟩⟩⟩
    · simp [create_order, get_okx_headers, h1, h2, h3, hl]
    · simp [create_order, get_okx_headers, h1, h2, h3, hl]
    · rw [hl] at hlen
      simp at hlen
    · simp [create_order, get_okx_headers, h1, h2, h3, hl]
  refine ⟨hmain, ?_, ?_⟩
  · rw [hmain]
    simp [ordersOf]
  · rw [hmain]
    simp [countElicits]

/-- Claim C8 counterexample: for the malformed instrument id `"BTCUSDT"` the
invocation is indeed rejected, but only after the balance query — the trace
contains the balance GET network call, refuting "before any network call". -/
theorem create_order_bad_instId_counterexample :
    create_order ⟨some "k", some "sec", some "pass"⟩ (fun _ => 0) (fun _ => "0")
        "t1" ⟨none⟩ "t2" "r" "BTCUSDT" "buy" "1" "market" "cash" none =
      ([.serverTimeFetch, .balanceGet],
       .error "ValueError: not enough values to unpack (expected 2)") ∧
    countBalanceGets [Effect.serverTimeFetch, Effect.balanceGet] = 1 := by
  constructor
  · rfl
  · decide

/-- Claim C9 (amended): the secret never influences any value returned by a
tool — `create_order` and `get_balance` yield identical results and traces
under any two present secrets, only the Signer reading the secret into the
discarded headers — but the startup code does print the secret to the
console: the third console line is `API_SECRET: ` followed by it. -/
theorem secret_confined_to_signer_but_printed (cfg : Config) (s1 s2 : String)
    (toNum : String → ℚ) (render : ℚ → String)
    (ts1 : String) (balResp : BalanceResp) (ts2 orderResp : String)
    (instId side sz ordType tdMode : String) (ctx : Option (String → ElicitResult))
    (ts respStr : String)
    (hs1 : s1.isEmpty = false) (hs2 : s2.isEmpty = false) :
    create_order (Config.mk cfg.api_key (some s1) cfg.api_passphrase) toNum render
        ts1 balResp ts2 orderResp instId side sz ordType tdMode ctx =
      create_order (Config.mk cfg.api_key (some s2) cfg.api_passphrase) toNum render
        ts1 balResp ts2 orderResp instId side sz ordType tdMode ctx ∧
    get_balance (Config.mk cfg.api_key (some s1) cfg.api_passphrase) ts respStr =
      get_balance (Config.mk cfg.api_key (some s2) cfg.api_passphrase) ts respStr ∧
    (main_output cfg).getD 2 "" = "API_SECRET: " ++ pyShowOpt cfg.api_secret := by
  have hps1 : pyFalsy (some s1) = false := by
    simp [pyFalsy, hs1]
  have hps2 : pyFalsy (some s2) = false := by
    simp [pyFalsy, hs2]
  refine ⟨?_, ?_, ?_⟩
  · cases hk : pyFalsy cfg.api_key <;> cases hp : pyFalsy cfg.api_passphrase <;>
      simp [create_order, get_okx_headers, submit_order, hk, hp, hps1, hps2]
  · cases hk : pyFalsy cfg.api_key <;> cases hp : pyFalsy cfg.api_passphrase <;>
      simp [get_balance, get_okx_headers, hk, hp, hps1, hps2]
  · simp [main_output]

/-- Witness for `secret_confined_to_signer_but_printed` at concrete inputs. -/
theorem secret_confined_to_signer_but_printed_witness :
    ("sec1" : String).isEmpty = false ∧ ("sec2" : String).isEmpty = false ∧
    (create_order (Config.mk (some "k") (some "sec1") (some "pass")) (fun _ => 0) (fun _ => "0")
        "t1" ⟨none⟩ "t2" "r" "BTC-USDT" "buy" "1" "market" "cash" none =
      create_order (Config.mk (some "k") (some "sec2") (some "pass")) (fun _ => 0) (fun _ => "0")
        "t1" ⟨none⟩ "t2" "r" "BTC-USDT" "buy" "1" "market" "cash" none ∧
    get_balance (Config.mk (some "k") (some "sec1") (some "pass")) "t" "r" =
      get_balance (Config.mk (some "k") (some "sec2") (some "pass")) "t" "r" ∧
    (main_output (Config.mk (some "k") (some "sec0") (some "pass"))).getD 2 "" =
      "API_SECRET: " ++ pyShowOpt (some "sec0")) :=
  ⟨by decide, by decide,
   secret_confined_to_signer_but_printed (Config.mk (some "k") (some "sec0") (some "pass"))
     "sec1" "sec2" (fun _ => 0) (fun _ => "0") "t1" ⟨none⟩ "t2" "r" "BTC-USDT" "buy" "1"
     "market" "cash" none "t" "r" (by decide) (by decide)⟩

/-- Claim C9 counterexample: the startup console output contains the API
secret verbatim — the third printed line is `API_SECRET: ` followed by the
secret — refuting "never written to any log/console output". -/
theorem secret_printed_counterexample :
    main_output ⟨some "k", some "topsecret", some "pass"⟩ =
      ["Hello from mcp-server-demo!\n可用MCP工具：get_balance, get_ticker, get_kline, create_order",
       "API_KEY: k",
       "API_SECRET: " ++ "topsecret",
       "API_PASSPHRASE: pass"] := by
  decide

/-- Claim C10: the available balance is resolved from the first account
object of `data` only (later accounts are ignored, end to end through
`create_order`), taking `availBal` of the first detail entry whose `ccy`
equals the checked currency (later matches ignored); an absent `data` key or
no matching entry resolves to 0. -/
theorem balance_resolution_first_account_first_match
    (toNum : String → ℚ) (ccy : String) (acc : BalanceAccount)
    (rest rest' : List BalanceAccount) (d : BalanceDetail) (ds : List BalanceDetail)
    (cfg : Config) (render : ℚ → String) (ts1 ts2 orderResp : String)
    (instId side sz ordType tdMode : String) (ctx : Option (String → ElicitResult)) :
    firstDetails ⟨none⟩ = .ok ([] : List BalanceDetail) ∧
    firstDetails ⟨some (acc :: rest)⟩ = .ok (acc.details.getD []) ∧
    resolveAvailable toNum ccy [] = 0 ∧
    (d.ccy = some ccy → resolveAvailable toNum ccy (d :: ds) = availNum toNum d) ∧
    (d.ccy ≠ some ccy → resolveAvailable toNum ccy (d :: ds) = resolveAvailable toNum ccy ds) ∧
    ((∀ e ∈ ds, e.ccy ≠ some ccy) → resolveAvailable toNum ccy ds = 0) ∧
    create_order cfg toNum render ts1 ⟨some (acc :: rest)⟩ ts2 orderResp instId side sz ordType tdMode ctx =
      create_order cfg toNum render ts1 ⟨some (acc :: rest')⟩ ts2 orderResp instId side sz ordType tdMode ctx := by
  refine ⟨rfl, rfl, rfl, ?_, ?_, ?_, ?_⟩
  · intro h
    simp [resolveAvailable, List.find?, h]
  · intro h
    have hb : (d.ccy == some ccy) = false := by
      simp [h]
    simp [resolveAvailable, List.find?, hb]
  · intro h
    have : ds.find? (fun e => e.ccy == some ccy) = none := by
      rw [List.find?_eq_none]
      intro e he
      simp [h e he]
    simp [resolveAvailable, this]
  · cases hH : get_okx_headers cfg "GET" "/api/v5/account/balance" "" ts1 <;>
      simp [create_order, hH, firstDetails]

/-- Concrete configuration with all credentials present. -/
def cfgFull : Config := ⟨some "k", some "sec", some "pass"⟩

/-- Concrete stand-in for Python `float` on the size strings used below. -/
def toNum0 : String → ℚ := fun s =>
  if s == "1" then 1 else if s == "2" then 2 else if s == "3" then 3 else 0

/-- Concrete stand-in for Python `str` on floats. -/
def render0 : ℚ → String := fun _ => "0.5"

/-- Balance details holding 2 ETH. -/
def detailsETH : List BalanceDetail := [⟨some "ETH", some "2"⟩]

/-- Balance response with one account holding 2 ETH. -/
def balRespETH : BalanceResp := ⟨some [⟨some detailsETH⟩]⟩

/-- Balance details holding 2 USDT. -/
def detailsUSDT : List BalanceDetail := [⟨some "USDT", some "2"⟩]

/-- Balance response with one account holding 2 USDT. -/
def balRespUSDT : BalanceResp := ⟨some [⟨some detailsUSDT⟩]⟩

/-- A collaborator that declines every elicitation. -/
def declineFn : String → ElicitResult := fun _ => ⟨"decline", none⟩

/-- A collaborator that accepts every elicitation with replacement size 0.001. -/
def acceptFn : String → ElicitResult := fun _ => ⟨"accept", some ⟨true, "0.001"⟩⟩

/-- Witness for `create_order_sufficient`: selling 1 ETH with 2 ETH held. -/
theorem create_order_sufficient_witness :
    credsOk cfgFull = true ∧
    splitDash "ETH-USDT" = ["ETH", "USDT"] ∧
    firstDetails balRespETH = .ok detailsETH ∧
    toNum0 "1" ≤ resolveAvailable toNum0 (checkedCcy "sell" "ETH" "USDT") detailsETH ∧
    (create_order cfgFull toNum0 render0 "t1" balRespETH "t2" "resp" "ETH-USDT" "sell" "1" "market" "cash" none =
      ([.serverTimeFetch, .balanceGet, .serverTimeFetch,
        .orderPost ⟨"ETH-USDT", "cash", "sell", "market", "1"⟩], .ok "resp") ∧
    ordersOf (create_order cfgFull toNum0 render0 "t1" balRespETH "t2" "resp" "ETH-USDT" "sell" "1" "market" "cash" none).1 =
      [⟨"ETH-USDT", "cash", "sell", "market", "1"⟩] ∧
    countElicits (create_order cfgFull toNum0 render0 "t1" balRespETH "t2" "resp" "ETH-USDT" "sell" "1" "market" "cash" none).1 = 0) :=
  ⟨by decide, by decide, rfl, by decide,
   create_order_sufficient cfgFull toNum0 render0 "t1" balRespETH "t2" "resp"
     "ETH-USDT" "sell" "1" "market" "cash" none "ETH" "USDT" detailsETH
     (by decide) (by decide) rfl (by decide)⟩

/-- Witness for `create_order_declined`: buying with 2 USDT held, size 3,
collaborator declines. -/
theorem create_order_declined_witness :
    credsOk cfgFull = true ∧
    splitDash "BTC-USDT" = ["BTC", "USDT"] ∧
    firstDetails balRespUSDT = .ok detailsUSDT ∧
    toNum0 "3" > resolveAvailable toNum0 (checkedCcy "buy" "BTC" "USDT") detailsUSDT ∧
    acceptTryAgain (declineFn (elicitMessage (checkedCcy "buy" "BTC" "USDT")
      (render0 (resolveAvailable toNum0 (checkedCcy "buy" "BTC" "USDT") detailsUSDT)) "3")) = false ∧
    (create_order cfgFull toNum0 render0 "t1" balRespUSDT "t2" "resp" "BTC-USDT" "buy" "3" "market" "cash" (some declineFn) =
      ([.serverTimeFetch, .balanceGet,
        .elicitCall (elicitMessage (checkedCcy "buy" "BTC" "USDT")
          (render0 (resolveAvailable toNum0 (checkedCcy "buy" "BTC" "USDT") detailsUSDT)) "3")],
       .ok cancelledMsg) ∧
    ordersOf (create_order cfgFull toNum0 render0 "t1" balRespUSDT "t2" "resp" "BTC-USDT" "buy" "3" "market" "cash" (some declineFn)).1 = [] ∧
    cancelledMsg = "[CANCELLED]" ++ " 余额不足，订单已取消") :=
  ⟨by decide, by decide, rfl, by decide, by decide,
   create_order_declined cfgFull toNum0 render0 "t1" balRespUSDT "t2" "resp"
     "BTC-USDT" "buy" "3" "market" "cash" declineFn "BTC" "USDT" detailsUSDT
     (by decide) (by decide) rfl (by decide) (by decide)⟩

/-- Witness for `create_order_negotiated`: same shortfall, collaborator
accepts with replacement size 0.001. -/
theorem create_order_negotiated_witness :
    credsOk cfgFull = true ∧
    splitDash "BTC-USDT" = ["BTC", "USDT"] ∧
    firstDetails balRespUSDT = .ok detailsUSDT ∧
    toNum0 "3" > resolveAvailable toNum0 (checkedCcy "buy" "BTC" "USDT") detailsUSDT ∧
    acceptTryAgain (acceptFn (elicitMessage (checkedCcy "buy" "BTC" "USDT")
      (render0 (resolveAvailable toNum0 (checkedCcy "buy" "BTC" "USDT") detailsUSDT)) "3")) = true ∧
    (create_order cfgFull toNum0 render0 "t1" balRespUSDT "t2" "resp" "BTC-USDT" "buy" "3" "market" "cash" (some acceptFn) =
      ([.serverTimeFetch, .balanceGet,
        .elicitCall (elicitMessage (checkedCcy "buy" "BTC" "USDT")
          (render0 (resolveAvailable toNum0 (checkedCcy "buy" "BTC" "USDT") detailsUSDT)) "3"),
        .serverTimeFetch,
        .orderPost ⟨"BTC-USDT", "cash", "buy", "market",
          newSizeOf (acceptFn (elicitMessage (checkedCcy "buy" "BTC" "USDT")
            (render0 (resolveAvailable toNum0 (checkedCcy "buy" "BTC" "USDT") detailsUSDT)) "3"))⟩],
       .ok "resp") ∧
    ordersOf (create_order cfgFull toNum0 render0 "t1" balRespUSDT "t2" "resp" "BTC-USDT" "buy" "3" "market" "cash" (some acceptFn)).1 =
      [⟨"BTC-USDT", "cash", "buy", "market",
        newSizeOf (acceptFn (elicitMessage (checkedCcy "buy" "BTC" "USDT")
          (render0 (resolveAvailable toNum0 (checkedCcy "buy" "BTC" "USDT") detailsUSDT)) "3"))⟩] ∧
    countBalanceGets (create_order cfgFull toNum0 render0 "t1" balRespUSDT "t2" "resp" "BTC-USDT" "buy" "3" "market" "cash" (some acceptFn)).1 = 1) :=
  ⟨by decide, by decide, rfl, by decide, by decide,
   create_order_negotiated cfgFull toNum0 render0 "t1" balRespUSDT "t2" "resp"
     "BTC-USDT" "buy" "3" "market" "cash" acceptFn "BTC" "USDT" detailsUSDT
     (by decide) (by decide) rfl (by decide) (by decide)⟩

/-- Witness for `create_order_no_ctx`: same shortfall without a collaborator. -/
theorem create_order_no_ctx_witness :
    credsOk cfgFull = true ∧
    splitDash "BTC-USDT" = ["BTC", "USDT"] ∧
    firstDetails balRespUSDT = .ok detailsUSDT ∧
    toNum0 "3" > resolveAvailable toNum0 (checkedCcy "buy" "BTC" "USDT") detailsUSDT ∧
    (create_order cfgFull toNum0 render0 "t1" balRespUSDT "t2" "resp" "BTC-USDT" "buy" "3" "market" "cash" none =
      ([.serverTimeFetch, .balanceGet],
       .ok (failedMsg (checkedCcy "buy" "BTC" "USDT")
         (render0 (resolveAvailable toNum0 (checkedCcy "buy" "BTC" "USDT") detailsUSDT)))) ∧
    ordersOf (create_order cfgFull toNum0 render0 "t1" balRespUSDT "t2" "resp" "BTC-USDT" "buy" "3" "market" "cash" none).1 = [] ∧
    failedMsg (checkedCcy "buy" "BTC" "USDT") (render0 (resolveAvailable toNum0 (checkedCcy "buy" "BTC" "USDT") detailsUSDT)) =
      "[FAILED]" ++ (" 余额不足，可用" ++ (checkedCcy "buy" "BTC" "USDT" ++ ("为" ++
        render0 (resolveAvailable toNum0 (checkedCcy "buy" "BTC" "USDT") detailsUSDT))))) :=
  ⟨by decide, by decide, rfl, by decide,
   create_order_no_ctx cfgFull toNum0 render0 "t1" balRespUSDT "t2" "resp"
     "BTC-USDT" "buy" "3" "market" "cash" "BTC" "USDT" detailsUSDT
     (by decide) (by decide) rfl (by decide)⟩

/-- Witness for `config_error_before_authenticated_call` with the secret
absent. -/
theorem config_error_before_authenticated_call_witness :
    credsOk ⟨some "k", none, some "pass"⟩ = false ∧
    (isErr (get_balance ⟨some "k", none, some "pass"⟩ "t" "r").2 = true ∧
    (get_balance ⟨some "k", none, some "pass"⟩ "t" "r").1 = [.serverTimeFetch] ∧
    isErr (create_order ⟨some "k", none, some "pass"⟩ toNum0 render0 "t1" balRespUSDT "t2" "or" "BTC-USDT" "buy" "1" "market" "cash" none).2 = true ∧
    (create_order ⟨some "k", none, some "pass"⟩ toNum0 render0 "t1" balRespUSDT "t2" "or" "BTC-USDT" "buy" "1" "market" "cash" none).1 =
      [.serverTimeFetch]) :=
  ⟨by decide,
   config_error_before_authenticated_call ⟨some "k", none, some "pass"⟩ "t" "r"
     toNum0 render0 "t1" balRespUSDT "t2" "or" "BTC-USDT" "buy" "1" "market" "cash" none
     (by decide)⟩

/-- Witness for `create_order_bad_instId` on the three-part id `A-B-C`. -/
theorem create_order_bad_instId_witness :
    credsOk cfgFull = true ∧
    (splitDash "A-B-C").length ≠ 2 ∧
    (create_order cfgFull toNum0 render0 "t1" balRespUSDT "t2" "or" "A-B-C" "buy" "1" "market" "cash" none =
      ([.serverTimeFetch, .balanceGet],
       .error "ValueError: not enough values to unpack (expected 2)") ∧
    ordersOf (create_order cfgFull toNum0 render0 "t1" balRespUSDT "t2" "or" "A-B-C" "buy" "1" "market" "cash" none).1 = [] ∧
    countElicits (create_order cfgFull toNum0 render0 "t1" balRespUSDT "t2" "or" "A-B-C" "buy" "1" "market" "cash" none).1 = 0) :=
  ⟨by decide, by decide,
   create_order_bad_instId cfgFull toNum0 render0 "t1" balRespUSDT "t2" "or"
     "A-B-C" "buy" "1" "market" "cash" none (by decide) (by decide)⟩

/-- Witness for `balance_resolution_first_account_first_match` at concrete
inputs: a matching first entry, a non-matching first entry, a detail list
with no match, and two balance responses differing after the first account. -/
theorem balance_resolution_first_account_first_match_witness :
    (BalanceDetail.mk (some "USDT") (some "2")).ccy = some "USDT" ∧
    resolveAvailable toNum0 "USDT" (⟨some "USDT", some "2"⟩ :: detailsETH) =
      availNum toNum0 ⟨some "USDT", some "2"⟩ ∧
    (BalanceDetail.mk (some "BTC") (some "7")).ccy ≠ some "USDT" ∧
    resolveAvailable toNum0 "USDT" (⟨some "BTC", some "7"⟩ :: detailsETH) =
      resolveAvailable toNum0 "USDT" detailsETH ∧
    (∀ e ∈ detailsETH, e.ccy ≠ some "USDT") ∧
    resolveAvailable toNum0 "USDT" detailsETH = 0 ∧
    firstDetails ⟨none⟩ = .ok ([] : List BalanceDetail) ∧
    firstDetails ⟨some (⟨some detailsUSDT⟩ :: [⟨some detailsETH⟩])⟩ =
      .ok ((BalanceAccount.mk (some detailsUSDT)).details.getD []) ∧
    create_order cfgFull toNum0 render0 "t1" ⟨some (⟨some detailsUSDT⟩ :: [⟨some detailsETH⟩])⟩ "t2" "r" "BTC-USDT" "buy" "1" "market" "cash" none =
      create_order cfgFull toNum0 render0 "t1" ⟨some (⟨some detailsUSDT⟩ :: [])⟩ "t2" "r" "BTC-USDT" "buy" "1" "market" "cash" none :=
  ⟨by decide,
   (balance_resolution_first_account_first_match toNum0 "USDT" ⟨some detailsUSDT⟩
     [⟨some detailsETH⟩] [] ⟨some "USDT", some "2"⟩ detailsETH cfgFull render0
     "t1" "t2" "r" "BTC-USDT" "buy" "1" "market" "cash" none).2.2.2.1 (by decide),
   by decide,
   (balance_resolution_first_account_first_match toNum0 "USDT" ⟨some detailsUSDT⟩
     [⟨some detailsETH⟩] [] ⟨some "BTC", some "7"⟩ detailsETH cfgFull render0
     "t1" "t2" "r" "BTC-USDT" "buy" "1" "market" "cash" none).2.2.2.2.1 (by decide),
   by decide,
   (balance_resolution_first_account_first_match toNum0 "USDT" ⟨some detailsUSDT⟩
     [⟨some detailsETH⟩] [] ⟨some "USDT", some "2"⟩ detailsETH cfgFull render0
     "t1" "t2" "r" "BTC-USDT" "buy" "1" "market" "cash" none).2.2.2.2.2.1 (by decide),
   (balance_resolution_first_account_first_match toNum0 "USDT" ⟨some detailsUSDT⟩
     [⟨some detailsETH⟩] [] ⟨some "USDT", some "2"⟩ detailsETH cfgFull render0
     "t1" "t2" "r" "BTC-USDT" "buy" "1" "market" "cash" none).1,
   (balance_resolution_first_account_first_match toNum0 "USDT" ⟨some detailsUSDT⟩
     [⟨some detailsETH⟩] [] ⟨some "USDT", some "2"⟩ detailsETH cfgFull render0
     "t1" "t2" "r" "BTC-USDT" "buy" "1" "market" "cash" none).2.1,
   (balance_resolution_first_account_first_match toNum0 "USDT" ⟨some detailsUSDT⟩
     [⟨some detailsETH⟩] [] ⟨some "USDT", some "2"⟩ detailsETH cfgFull render0
     "t1" "t2" "r" "BTC-USDT" "buy" "1" "market" "cash" none).2.2.2.2.2.2⟩
